import Mathlib

/-!
# Verification of the well-map viewer frontend

A shallow embedding of the frontend `App` component of the
advance-text-extraction repository: a reducer-managed well-record state
cell, a fetch effect that dispatches the parsed JSON body, and a map
render that turns each well record into a marker with a popup.

JavaScript dynamic values are modelled by `Json` (the values `JSON.parse`
can produce) plus `JsValue` (a JSON value or `undefined`, the possible
results of property access).  JavaScript numbers are modelled by `JsNum`
(NaN, signed infinity, or a rational); the ECMAScript `Number(string)`
coercion is modelled exactly by `stringToNumber` for decimal, hex, octal
and binary literals.  (Rationals stand in for IEEE doubles; none of the
properties proved here depend on rounding.)
-/

namespace WellViewer

/-- A JSON value, as produced by `JSON.parse` on the fetch response body. -/
inductive Json where
  | null
  | bool (b : Bool)
  | num (q : ℚ)
  | str (s : String)
  | arr (elems : List Json)
  | obj (fields : List (String × Json))
deriving Repr

/-- A JavaScript value reachable by property access on a parsed JSON value:
either a JSON value or `undefined` (absent property). -/
inductive JsValue where
  | undefined
  | json (j : Json)
deriving Repr

/-- A JavaScript number: NaN, a signed infinity, or a finite value
(modelled as a rational). -/
inductive JsNum where
  | nan
  | inf (neg : Bool)
  | val (q : ℚ)
deriving Repr, DecidableEq

/-- The ECMAScript `StrWhiteSpaceChar` predicate: characters trimmed by
`Number(string)` before numeric parsing. -/
def isJsWhitespace (c : Char) : Bool :=
  let n := c.toNat
  n = 0x09 || n = 0x0A || n = 0x0B || n = 0x0C || n = 0x0D || n = 0x20 ||
  n = 0xA0 || n = 0x1680 || (0x2000 ≤ n && n ≤ 0x200A) || n = 0x2028 ||
  n = 0x2029 || n = 0x202F || n = 0x205F || n = 0x3000 || n = 0xFEFF

/-- Strip leading and trailing JavaScript whitespace. -/
def jsTrim (cs : List Char) : List Char :=
  ((cs.dropWhile isJsWhitespace).reverse.dropWhile isJsWhitespace).reverse

/-- Decimal digit test. -/
def isDecDigit (c : Char) : Bool := 48 ≤ c.toNat && c.toNat ≤ 57

/-- Value of a decimal digit string (most significant first). -/
def decDigitsVal (cs : List Char) : Nat :=
  cs.foldl (fun acc c => acc * 10 + (c.toNat - 48)) 0

/-- Value of a single hexadecimal digit, if it is one. -/
def hexDigitVal (c : Char) : Option Nat :=
  if 48 ≤ c.toNat && c.toNat ≤ 57 then some (c.toNat - 48)
  else if 97 ≤ c.toNat && c.toNat ≤ 102 then some (c.toNat - 87)
  else if 65 ≤ c.toNat && c.toNat ≤ 70 then some (c.toNat - 55)
  else none

/-- Value of a nonempty digit string in the given radix (2, 8 or 16);
`none` if empty or any character is not a digit of that radix. -/
def radixVal (radix : Nat) (cs : List Char) : Option Nat :=
  match cs with
  | [] => none
  | _ => cs.foldl (fun acc c =>
      match acc, hexDigitVal c with
      | some a, some d => if d < radix then some (a * radix + d) else none
      | _, _ => none) (some 0)

/-- Parse the ECMAScript `ExponentPart` occupying the whole remainder:
empty means exponent 0; otherwise `e`/`E`, an optional sign, and at least
one decimal digit. -/
def parseExp (cs : List Char) : Option Int :=
  match cs with
  | [] => some 0
  | c :: rest =>
    if c == 'e' || c == 'E' then
      let signDigits : Bool × List Char :=
        match rest with
        | '+' :: ds => (false, ds)
        | '-' :: ds => (true, ds)
        | ds => (false, ds)
      let neg := signDigits.1
      let ds := signDigits.2
      if !ds.isEmpty && ds.all isDecDigit then
        some (if neg then -(decDigitsVal ds : Int) else (decDigitsVal ds : Int))
      else none
    else none

/-- The shape of a recognised ECMAScript `StrNumericLiteral`, before
numeric interpretation: not numeric, a signed `Infinity`, a signed decimal
literal (integer digits, fraction digits with their count, exponent), or a
non-decimal (hex/octal/binary) integer. -/
inductive NumLit where
  | notNumeric
  | infinite (neg : Bool)
  | decimal (neg : Bool) (ip fp fpLen : Nat) (e : Int)
  | radix (n : Nat)
deriving Repr, DecidableEq

/-- Parse an ECMAScript `StrUnsignedDecimalLiteral` without the `Infinity`
alternative: digits, an optional fraction, and an optional exponent,
consuming the whole string; result as literal parts. -/
def parseUnsignedDec (cs : List Char) : Option (Nat × Nat × Nat × Int) :=
  let ip := cs.takeWhile isDecDigit
  let rest := cs.dropWhile isDecDigit
  match rest with
  | '.' :: rest2 =>
    let fp := rest2.takeWhile isDecDigit
    let rest3 := rest2.dropWhile isDecDigit
    if ip.isEmpty && fp.isEmpty then none
    else
      match parseExp rest3 with
      | some e => some (decDigitsVal ip, decDigitsVal fp, fp.length, e)
      | none => none
  | _ =>
    if ip.isEmpty then none
    else
      match parseExp rest with
      | some e => some (decDigitsVal ip, 0, 0, e)
      | none => none

/-- Parse an unsigned numeric literal under a sign already consumed:
`Infinity` or an unsigned decimal. -/
def parseUnsignedLit (neg : Bool) (cs : List Char) : Option NumLit :=
  if cs == "Infinity".toList then some (.infinite neg)
  else (parseUnsignedDec cs).map fun p => .decimal neg p.1 p.2.1 p.2.2.1 p.2.2.2

/-- Parse a signed numeric literal (an optional `+`/`-` sign, then an
unsigned decimal or `Infinity`). -/
def parseSignedLit (cs : List Char) : Option NumLit :=
  match cs with
  | '+' :: rest => parseUnsignedLit false rest
  | '-' :: rest => parseUnsignedLit true rest
  | _ => parseUnsignedLit false cs

/-- Recognise a whole trimmed string as a numeric literal: the empty
string is the zero literal; `0x`/`0o`/`0b` prefixes parse in the
corresponding radix (no sign allowed); otherwise a signed decimal
literal. -/
def parseNumLit (s : String) : NumLit :=
  let cs := jsTrim s.toList
  match cs with
  | [] => .decimal false 0 0 0 0
  | '0' :: c :: rest =>
    if c == 'x' || c == 'X' then (radixVal 16 rest).elim .notNumeric .radix
    else if c == 'o' || c == 'O' then (radixVal 8 rest).elim .notNumeric .radix
    else if c == 'b' || c == 'B' then (radixVal 2 rest).elim .notNumeric .radix
    else (parseSignedLit cs).getD .notNumeric
  | _ => (parseSignedLit cs).getD .notNumeric

/-- The numeric value of a recognised literal. -/
def numLitValue : NumLit → JsNum
  | .notNumeric => .nan
  | .infinite neg => .inf neg
  | .radix n => .val (n : ℚ)
  | .decimal neg ip fp fpLen e =>
    .val ((if neg then -1 else 1) *
      ((ip : ℚ) + (fp : ℚ) / (10 : ℚ) ^ fpLen) * (10 : ℚ) ^ e)

/-- The ECMAScript `Number(string)` coercion (`StringToNumber`): trim
whitespace, recognise the remainder as a numeric literal, and take its
value; anything unrecognised is NaN. -/
def stringToNumber (s : String) : JsNum :=
  numLitValue (parseNumLit s)

/-- Split a positive natural into factors of `p` and the remaining cofactor,
with explicit fuel (any fuel at least `n` is enough). -/
def factorOut (p : Nat) : Nat → Nat → Nat × Nat
  | 0, n => (0, n)
  | fuel + 1, n =>
    if 2 ≤ p ∧ 0 < n ∧ n % p = 0 then
      let r := factorOut p fuel (n / p)
      (r.1 + 1, r.2)
    else (0, n)

/-- JavaScript number-to-string for finite values.  Integers print in
decimal; other rationals with a terminating decimal expansion print with a
fractional part.  (Rationals with no terminating expansion cannot arise
from JSON numeric literals; they fall back to an exact fraction notation,
a boundary of the rational model of doubles, as is the exponential
notation JavaScript uses for very large or small magnitudes.) -/
def numToString (q : ℚ) : String :=
  if q.den = 1 then toString q.num
  else
    let a := (factorOut 2 q.den q.den).1
    let r2 := (factorOut 2 q.den q.den).2
    let b := (factorOut 5 r2 r2).1
    let r5 := (factorOut 5 r2 r2).2
    if r5 = 1 then
      let k := max a b
      let scaled := q.num.natAbs * 10 ^ k / q.den
      let sign := if q.num < 0 then "-" else ""
      let fpStr := toString (scaled % 10 ^ k)
      sign ++ toString (scaled / 10 ^ k) ++ "." ++
        String.mk (List.replicate (k - fpStr.length) '0') ++ fpStr
    else toString q.num ++ "/" ++ toString q.den

mutual

/-- JavaScript `ToString` on a parsed JSON value: arrays join their
elements with commas (null elements joining as the empty string), plain
objects print as `[object Object]`. -/
def jsToString : Json → String
  | .null => "null"
  | .bool b => if b then "true" else "false"
  | .num q => numToString q
  | .str s => s
  | .arr xs => String.intercalate "," (arrElemStrings xs)
  | .obj _ => "[object Object]"

/-- Strings of the elements of an array for `Array.prototype.join`:
`null` joins as the empty string. -/
def arrElemStrings : List Json → List String
  | [] => []
  | .null :: rest => "" :: arrElemStrings rest
  | x :: rest => jsToString x :: arrElemStrings rest

end

/-- JavaScript `ToNumber` on a property-access result: `undefined` is NaN,
`null` is `+0`, booleans are 0/1, strings go through `StringToNumber`,
and arrays and objects go through `ToPrimitive` (their string form) and
then `StringToNumber`. -/
def toNumber : JsValue → JsNum
  | .undefined => .nan
  | .json .null => .val 0
  | .json (.bool b) => .val (if b then 1 else 0)
  | .json (.num q) => .val q
  | .json (.str s) => stringToNumber s
  | .json (.arr xs) => stringToNumber (String.intercalate "," (arrElemStrings xs))
  | .json (.obj _) => stringToNumber "[object Object]"

/-- The JavaScript nullish-coalescing operator `??`: keep the left value
unless it is `undefined` or `null`. -/
def coalesce (v : JsValue) (fallback : Json) : Json :=
  match v with
  | .undefined => fallback
  | .json .null => fallback
  | .json j => j

/-- Property lookup on the field list of a parsed JSON object.
`JSON.parse` keeps the last occurrence of a duplicated key, so the fold
takes the last match. -/
def objGet (fields : List (String × Json)) (k : String) : Option Json :=
  fields.foldl (fun acc kv => if kv.1 = k then some kv.2 else acc) none

/-- An `Option Json` viewed as a JavaScript value: a missing property is
`undefined`. -/
def jsValueOf (o : Option Json) : JsValue :=
  o.elim .undefined .json

/-- JavaScript property access `e.k` on a non-null value: objects look the
key up in their fields; primitives and arrays have none of the record
properties, giving `undefined`. -/
def jget (e : Json) (k : String) : JsValue :=
  match e with
  | .obj fs => jsValueOf (objGet fs k)
  | _ => .undefined

/-- The `Well` record type of the frontend: two required coordinate
strings (upper-case API field names) plus eight optional display
strings. -/
structure Well where
  LATITUDE : String
  LONGITUDE : String
  WELL_NAME : Option String
  WELL_STATUS : Option String
  WELL_TYPE : Option String
  API_NO : Option String
  OPERATOR : Option String
  CLOSEST_CITY : Option String
  OIL_PRODUCED : Option String
  GAS_PRODUCED : Option String
deriving Repr, DecidableEq

/-- One rendered map marker: the `key={index}` prop, the
`position=[Number(lat), Number(lon)]` pair, and the popup's eight
label/value lines in document order. -/
structure Marker where
  key : Nat
  position : JsNum × JsNum
  popup : List (String × Json)
deriving Repr

/-- A JavaScript exception surfaced during rendering. -/
inductive JsError where
  | typeError (msg : String)
deriving Repr, DecidableEq

/-- Render one well record (typed layer): marker position by `Number`
coercion of the coordinate strings, popup lines falling back to
`"Unknown"` for absent fields, in the fixed JSX order. -/
def renderWell (i : Nat) (w : Well) : Marker :=
  { key := i
    position := (stringToNumber w.LATITUDE, stringToNumber w.LONGITUDE)
    popup := [
      ("Well Name", .str (w.WELL_NAME.getD "Unknown")),
      ("Status", .str (w.WELL_STATUS.getD "Unknown")),
      ("Type", .str (w.WELL_TYPE.getD "Unknown")),
      ("API No", .str (w.API_NO.getD "Unknown")),
      ("Operator", .str (w.OPERATOR.getD "Unknown")),
      ("Closest City", .str (w.CLOSEST_CITY.getD "Unknown")),
      ("Oil Produced", .str (w.OIL_PRODUCED.getD "Unknown")),
      ("Gas Produced", .str (w.GAS_PRODUCED.getD "Unknown"))] }

/-- Render a list of typed well records with their indices as keys,
starting at index `i`. -/
def renderWellsFrom (i : Nat) : List Well → List Marker
  | [] => []
  | w :: rest => renderWell i w :: renderWellsFrom (i + 1) rest

/-- Render a list of typed well records, keys `0, 1, ...` as in
`wells.map((well, index) => ...)`. -/
def renderWells (ws : List Well) : List Marker := renderWellsFrom 0 ws

/-- Render one element of the held WellSet as the code does at runtime:
property access on `null` throws a `TypeError`; on any other value the
marker is built from whatever the property accesses produce (`undefined`
on non-objects and missing keys). -/
def renderWellJson (i : Nat) (e : Json) : Except JsError Marker :=
  match e with
  | .null => .error (.typeError "Cannot read properties of null (reading LATITUDE)")
  | _ => .ok
      { key := i
        position := (toNumber (jget e "LATITUDE"), toNumber (jget e "LONGITUDE"))
        popup := [
          ("Well Name", coalesce (jget e "WELL_NAME") (.str "Unknown")),
          ("Status", coalesce (jget e "WELL_STATUS") (.str "Unknown")),
          ("Type", coalesce (jget e "WELL_TYPE") (.str "Unknown")),
          ("API No", coalesce (jget e "API_NO") (.str "Unknown")),
          ("Operator", coalesce (jget e "OPERATOR") (.str "Unknown")),
          ("Closest City", coalesce (jget e "CLOSEST_CITY") (.str "Unknown")),
          ("Oil Produced", coalesce (jget e "OIL_PRODUCED") (.str "Unknown")),
          ("Gas Produced", coalesce (jget e "GAS_PRODUCED") (.str "Unknown"))] }

/-- Render the elements of an array-valued WellSet left to right,
numbering keys from `i`; the first thrown `TypeError` aborts the render. -/
def renderElems (i : Nat) : List Json → Except JsError (List Marker)
  | [] => .ok []
  | e :: rest =>
    match renderWellJson i e with
    | .error err => .error err
    | .ok m =>
      match renderElems (i + 1) rest with
      | .error err => .error err
      | .ok ms => .ok (m :: ms)

/-- The `wells.map(...)` render of the held state: only arrays have a
`.map` method, so a non-array state throws a `TypeError`. -/
def renderState (wells : Json) : Except JsError (List Marker) :=
  match wells with
  | .arr xs => renderElems 0 xs
  | _ => .error (.typeError "wells.map is not a function")

/-- A dispatched action as seen by the reducer at runtime: a `type` tag
switched on, and a payload. -/
structure ActionJs where
  type : String
  payload : Json
deriving Repr

/-- The `useImmerReducer` recipe: `SET_WELLS` returns the payload,
replacing the state wholesale; the `default` branch returns `undefined`,
which under immer keeps the (unmutated) draft, leaving the state
unchanged. -/
def wellsReducer (state : Json) (a : ActionJs) : Json :=
  if a.type = "SET_WELLS" then a.payload else state

/-- The reducer's initial state: the array literal `[]`. -/
def initialWells : Json := .arr []

/-- One console line: `console.log` or `console.error`. -/
inductive LogEntry where
  | info (msg : String)
  | line (msg : String)
deriving Repr, DecidableEq

/-- Whether a console line went to `console.error` (the observability
sink for failures). -/
def isErrorLine : LogEntry → Bool
  | .line _ => true
  | .info _ => false

/-- The resolution of the fetch as observed by the effect's promise
chain: either the fetch itself rejected (network error), or a response
arrived with some status code and `response.json()` either parsed the
body or rejected (non-JSON body). -/
inductive FetchOutcome where
  | netError (msg : String)
  | response (status : Nat) (jsonBody : Except String Json)
deriving Repr

/-- The actions the effect dispatches for a fetch outcome.  The promise
chain never inspects `response.status`: any outcome whose body parsed as
JSON is dispatched as `SET_WELLS`; a network error or JSON parse
rejection falls to `.catch`, which only logs. -/
def loaderDispatches : FetchOutcome → List ActionJs
  | .netError _ => []
  | .response _ (.error _) => []
  | .response _ (.ok j) => [⟨"SET_WELLS", j⟩]

/-- The console lines the effect produces for a fetch outcome. -/
def loaderLogs : FetchOutcome → List LogEntry
  | .netError m =>
    [.info "Fetching wells data...", .line ("Error fetching wells data: " ++ m)]
  | .response _ (.error m) =>
    [.info "Fetching wells data...", .line ("Error fetching wells data: " ++ m)]
  | .response _ (.ok _) =>
    [.info "Fetching wells data...", .info "Wells data received:"]

/-- Whether an outcome takes the failure (`.catch`) path: a network error
or a body that failed to parse as JSON. -/
def isFailure : FetchOutcome → Bool
  | .netError _ => true
  | .response _ (.error _) => true
  | .response _ (.ok _) => false

/-- The state after the effect runs: every dispatched action folded
through the reducer. -/
def applyFetch (s : Json) (o : FetchOutcome) : Json :=
  (loaderDispatches o).foldl wellsReducer s

/-- A JSON value that is a string, viewed as that string. -/
def asString : Option Json → Option String
  | some (.str s) => some s
  | _ => none

/-- An optional string field: absent decodes to `none`; a present value
decodes only if it is a string. -/
def asOptString : Option Json → Option (Option String)
  | none => some none
  | some (.str s) => some (some s)
  | some _ => none

/-- Decode a JSON value as a well-shaped record (an object whose
coordinate fields are strings and whose optional display fields are
absent or strings, matching the frontend's `Well` type). -/
def decodeWell : Json → Option Well
  | .obj fs => do
    let lat ← asString (objGet fs "LATITUDE")
    let lon ← asString (objGet fs "LONGITUDE")
    let nm ← asOptString (objGet fs "WELL_NAME")
    let st ← asOptString (objGet fs "WELL_STATUS")
    let ty ← asOptString (objGet fs "WELL_TYPE")
    let api ← asOptString (objGet fs "API_NO")
    let op ← asOptString (objGet fs "OPERATOR")
    let cc ← asOptString (objGet fs "CLOSEST_CITY")
    let oil ← asOptString (objGet fs "OIL_PRODUCED")
    let gas ← asOptString (objGet fs "GAS_PRODUCED")
    some ⟨lat, lon, nm, st, ty, api, op, cc, oil, gas⟩
  | _ => none

/-- Decode every element of an array body as a well-shaped record. -/
def decodeWells : List Json → Option (List Well)
  | [] => some []
  | e :: rest => do
    let w ← decodeWell e
    let ws ← decodeWells rest
    some (w :: ws)

/-- Decode a JSON body as a well-shaped WellSet: an array of well-shaped
records. -/
def decodeWellSet : Json → Option (List Well)
  | .arr es => decodeWells es
  | _ => none

/-- The typed record of the spec's end-to-end scenario: coordinates
`"48.21"` / `"-103.6"`, name `"Well A"`, all other fields absent. -/
def exampleWellA : Well :=
  ⟨"48.21", "-103.6", some "Well A", none, none, none, none, none, none, none⟩

/-- The JSON form of the end-to-end scenario record. -/
def exampleWellAJson : Json :=
  .obj [("LATITUDE", .str "48.21"), ("LONGITUDE", .str "-103.6"),
        ("WELL_NAME", .str "Well A")]

/-- A record whose coordinate strings are not numeric. -/
def exampleBadRecord : Json :=
  .obj [("LATITUDE", .str "not-a-number"), ("LONGITUDE", .str "also-bad")]

/-- An object record with no fields at all. -/
def exampleEmptyRecord : Json := .obj []

/-- The marker the empty record renders to: NaN position, every popup
line showing the fallback label. -/
def exampleEmptyMarker : Marker :=
  ⟨0, (.nan, .nan),
   [("Well Name", .str "Unknown"), ("Status", .str "Unknown"),
    ("Type", .str "Unknown"), ("API No", .str "Unknown"),
    ("Operator", .str "Unknown"), ("Closest City", .str "Unknown"),
    ("Oil Produced", .str "Unknown"), ("Gas Produced", .str "Unknown")]⟩

/-- A string field decoded from a property slot pins down the JavaScript
value read from that slot. -/
theorem jsValueOf_of_asString {o : Option Json} {s : String}
    (h : asString o = some s) : jsValueOf o = .json (.str s) := by
  match o with
  | none => simp [asString] at h
  | some j =>
    cases j <;> simp [asString] at h
    simp [jsValueOf, h]

/-- An optional string field decoded from a property slot determines the
result of the `?? "Unknown"` coalescing on that slot. -/
theorem coalesce_of_asOptString {o : Option Json} {v : Option String}
    (h : asOptString o = some v) :
    coalesce (jsValueOf o) (.str "Unknown") = .str (v.getD "Unknown") := by
  match o with
  | none =>
    simp [asOptString] at h
    simp [jsValueOf, coalesce, ← h]
  | some j =>
    cases j <;> simp [asOptString] at h
    simp [jsValueOf, coalesce, ← h]

/-- A decoded well record renders at runtime exactly as the typed render
of that record: the dynamic and typed layers agree on well-shaped data. -/
theorem renderWellJson_of_decode {e : Json} {w : Well} (i : Nat)
    (h : decodeWell e = some w) :
    renderWellJson i e = .ok (renderWell i w) := by
  match e with
  | .null => simp [decodeWell] at h
  | .bool b => simp [decodeWell] at h
  | .num q => simp [decodeWell] at h
  | .str s => simp [decodeWell] at h
  | .arr xs => simp [decodeWell] at h
  | .obj fs =>
    simp only [decodeWell, Option.bind_eq_bind, Option.bind_eq_some,
      Option.some.injEq] at h
    obtain ⟨lat, hlat, lon, hlon, nm, hnm, st, hst, ty, hty, api, hapi,
      op, hop, cc, hcc, oil, hoil, gas, hgas, hw⟩ := h
    subst hw
    simp only [renderWellJson, renderWell, jget,
      jsValueOf_of_asString hlat, jsValueOf_of_asString hlon,
      coalesce_of_asOptString hnm, coalesce_of_asOptString hst,
      coalesce_of_asOptString hty, coalesce_of_asOptString hapi,
      coalesce_of_asOptString hop, coalesce_of_asOptString hcc,
      coalesce_of_asOptString hoil, coalesce_of_asOptString hgas,
      toNumber]

/-- A fully well-shaped array body renders at runtime exactly as the
typed render of the decoded records. -/
theorem renderElems_of_decodeWells {es : List Json} {ws : List Well} (i : Nat)
    (h : decodeWells es = some ws) :
    renderElems i es = .ok (renderWellsFrom i ws) := by
  induction es generalizing i ws with
  | nil =>
    simp [decodeWells] at h
    subst h
    simp [renderElems, renderWellsFrom]
  | cons e rest ih =>
    simp only [decodeWells, Option.bind_eq_bind, Option.bind_eq_some,
      Option.some.injEq] at h
    obtain ⟨w, hw, tl, htl, hws⟩ := h
    subst hws
    simp [renderElems, renderWellJson_of_decode i hw, ih (i + 1) htl,
      renderWellsFrom]

/-- The typed render produces one marker per record. -/
theorem length_renderWellsFrom (i : Nat) (ws : List Well) :
    (renderWellsFrom i ws).length = ws.length := by
  induction ws generalizing i with
  | nil => rfl
  | cons w rest ih => simp [renderWellsFrom, ih]

/-- The typed render is positional: the marker at index `n` comes from the
record at index `n`, keyed by its absolute index. -/
theorem getElem?_renderWellsFrom (k : Nat) (ws : List Well) (n : Nat) :
    (renderWellsFrom k ws)[n]? = (ws[n]?).map (renderWell (k + n)) := by
  induction ws generalizing k n with
  | nil => simp [renderWellsFrom]
  | cons w rest ih =>
    match n with
    | 0 => simp [renderWellsFrom]
    | n + 1 =>
      have hkn : k + 1 + n = k + (n + 1) := by omega
      simp only [renderWellsFrom, List.getElem?_cons_succ, ih (k + 1) n, hkn]

/-- A successfully rendered element carries its index as its key. -/
theorem key_of_renderWellJson {i : Nat} {e : Json} {m : Marker}
    (h : renderWellJson i e = .ok m) : m.key = i := by
  match e with
  | .null => simp [renderWellJson] at h
  | .bool b => simp only [renderWellJson] at h; cases h; rfl
  | .num q => simp only [renderWellJson] at h; cases h; rfl
  | .str s => simp only [renderWellJson] at h; cases h; rfl
  | .arr xs => simp only [renderWellJson] at h; cases h; rfl
  | .obj fs => simp only [renderWellJson] at h; cases h; rfl

/-- A successful runtime render keys its markers by consecutive indices
starting at `i`. -/
theorem keys_of_renderElems {es : List Json} {i : Nat} {ms : List Marker}
    (h : renderElems i es = .ok ms) :
    ms.map Marker.key = List.range' i es.length := by
  induction es generalizing i ms with
  | nil =>
    simp only [renderElems] at h
    cases h
    simp
  | cons e rest ih =>
    simp only [renderElems] at h
    cases h1 : renderWellJson i e with
    | error err => rw [h1] at h; cases h
    | ok m =>
      rw [h1] at h
      cases h2 : renderElems (i + 1) rest with
      | error err => rw [h2] at h; cases h
      | ok tl =>
        rw [h2] at h
        cases h
        rw [List.map_cons, List.length_cons, List.range'_succ,
          key_of_renderWellJson h1, ih h2]

/-- A list all of whose elements satisfy the predicate drops to nothing. -/
theorem dropWhile_eq_nil_of_all {α : Type} {p : α → Bool} {l : List α}
    (h : l.all p = true) : l.dropWhile p = [] := by
  induction l with
  | nil => rfl
  | cons c rest ih =>
    simp only [List.all_cons, Bool.and_eq_true] at h
    simp [List.dropWhile_cons, h.1, ih h.2]

/-- Trimming a string of nothing but JavaScript whitespace leaves the
empty string. -/
theorem jsTrim_eq_nil_of_all {cs : List Char}
    (h : cs.all isJsWhitespace = true) : jsTrim cs = [] := by
  unfold jsTrim
  rw [dropWhile_eq_nil_of_all h]
  rfl

/-- The coordinate string of the end-to-end scenario coerces to the
decimal 48.21. -/
theorem stringToNumber_example_lat : stringToNumber "48.21" = .val (4821 / 100) := by
  have h : parseNumLit "48.21" = .decimal false 48 21 2 0 := by decide
  rw [stringToNumber, h]
  norm_num [numLitValue]

/-- The coordinate string of the end-to-end scenario coerces to the
decimal -103.6. -/
theorem stringToNumber_example_lon : stringToNumber "-103.6" = .val (-(1036 / 10)) := by
  have h : parseNumLit "-103.6" = .decimal true 103 6 1 0 := by decide
  rw [stringToNumber, h]
  norm_num [numLitValue]

/-- Claim C1: for every fetch response that is a JSON array of N
well-shaped records, after the View Model receives it the state holds the
response array, and the Map View renders exactly N markers, the marker at
each index coming from the record at that index. -/
theorem wellset_renders_one_marker_per_record
    (j : Json) (ws : List Well) (s : Json) (status : Nat)
    (h : decodeWellSet j = some ws) :
    applyFetch s (.response status (.ok j)) = j ∧
    renderState j = .ok (renderWells ws) ∧
    (renderWells ws).length = ws.length ∧
    ∀ n, (renderWells ws)[n]? = (ws[n]?).map (renderWell n) := by
  have hj : ∃ es, j = Json.arr es ∧ decodeWells es = some ws := by
    match j with
    | .null => simp [decodeWellSet] at h
    | .bool b => simp [decodeWellSet] at h
    | .num q => simp [decodeWellSet] at h
    | .str s2 => simp [decodeWellSet] at h
    | .obj fs => simp [decodeWellSet] at h
    | .arr es => exact ⟨es, rfl, h⟩
  obtain ⟨es, rfl, hes⟩ := hj
  refine ⟨?_, ?_, length_renderWellsFrom 0 ws, ?_⟩
  · simp [applyFetch, loaderDispatches, wellsReducer]
  · exact renderElems_of_decodeWells 0 hes
  · intro n
    simpa using getElem?_renderWellsFrom 0 ws n

/-- Witness for C1 at the spec's end-to-end scenario: a one-record
response yields exactly one marker, derived from that record. -/
theorem wellset_renders_one_marker_per_record_check :
    applyFetch initialWells (.response 200 (.ok (Json.arr [exampleWellAJson]))) =
      Json.arr [exampleWellAJson] ∧
    renderState (Json.arr [exampleWellAJson]) = .ok (renderWells [exampleWellA]) ∧
    (renderWells [exampleWellA]).length = 1 ∧
    (renderWells [exampleWellA])[0]? = some (renderWell 0 exampleWellA) :=
  have h := wellset_renders_one_marker_per_record (Json.arr [exampleWellAJson])
    [exampleWellA] initialWells 200 rfl
  ⟨h.1, h.2.1, h.2.2.1, h.2.2.2 0⟩

/-- Claim C2: dispatching `SET_WELLS(payload)` makes the held state
exactly the payload, whatever the prior state, and the initial state is
the empty array. -/
theorem set_wells_replaces_unconditionally :
    (∀ s p, wellsReducer s ⟨"SET_WELLS", p⟩ = p) ∧ initialWells = .arr [] :=
  ⟨fun s p => by simp [wellsReducer], rfl⟩

/-- Claim C3: every marker's position is the `Number` coercion of the
record's coordinate strings; the scenario record lands at
(48.21, -103.6); and a record with non-numeric coordinate strings still
renders (no exception), at NaN coordinates. -/
theorem marker_position_is_numeric_coercion :
    (∀ i w, (renderWell i w).position =
      (stringToNumber w.LATITUDE, stringToNumber w.LONGITUDE)) ∧
    (renderWell 0 exampleWellA).position = (.val (4821 / 100), .val (-(1036 / 10))) ∧
    (renderWellJson 0 exampleBadRecord).toOption.map Marker.position =
      some (.nan, .nan) := by
  refine ⟨fun i w => rfl, ?_, rfl⟩
  show (stringToNumber "48.21", stringToNumber "-103.6") = _
  rw [stringToNumber_example_lat, stringToNumber_example_lon]

/-- Claim C4: every failed fetch (network error or non-JSON body) logs an
error to the console and dispatches nothing, leaving the state at its
prior value. -/
theorem fetch_failure_logged_state_unchanged (s : Json) (o : FetchOutcome)
    (h : isFailure o = true) :
    loaderDispatches o = [] ∧
    (loaderLogs o).any isErrorLine = true ∧
    applyFetch s o = s := by
  match o with
  | .netError m => exact ⟨rfl, rfl, rfl⟩
  | .response st (.error m) => exact ⟨rfl, rfl, rfl⟩
  | .response st (.ok b) => simp [isFailure] at h

/-- Witness for C4: a simulated network error is logged and leaves the
initial empty state in place. -/
theorem fetch_failure_logged_state_unchanged_check :
    loaderDispatches (.netError "Failed to fetch") = [] ∧
    (loaderLogs (.netError "Failed to fetch")).any isErrorLine = true ∧
    applyFetch initialWells (.netError "Failed to fetch") = initialWells :=
  fetch_failure_logged_state_unchanged initialWells (.netError "Failed to fetch") rfl

/-- Counterexample to claim C5 as stated: a 404 response whose body
parses as JSON is dispatched to the View Model as a successful load, and
no error is logged — the non-200 status is not treated as a failure. -/
theorem non_ok_status_dispatched_as_success :
    loaderDispatches (.response 404 (.ok (.arr []))) = [⟨"SET_WELLS", .arr []⟩] ∧
    (loaderLogs (.response 404 (.ok (.arr [])))).any isErrorLine = false ∧
    applyFetch (.str "prior") (.response 404 (.ok (.arr []))) = .arr [] :=
  ⟨rfl, rfl, rfl⟩

/-- Claim C5 amended: the Loader never inspects the status code — a
response with a non-JSON body is a failure (logged, nothing dispatched)
regardless of status, and a response whose body parses as JSON is
dispatched as a successful load regardless of status. -/
theorem status_code_never_inspected :
    (∀ status m, loaderDispatches (.response status (.error m)) = [] ∧
      (loaderLogs (.response status (.error m))).any isErrorLine = true) ∧
    (∀ status j, loaderDispatches (.response status (.ok j)) = [⟨"SET_WELLS", j⟩] ∧
      (loaderLogs (.response status (.ok j))).any isErrorLine = false) :=
  ⟨fun _ _ => ⟨rfl, rfl⟩, fun _ _ => ⟨rfl, rfl⟩⟩

/-- Claim C6: every popup shows the eight display fields in the fixed
order (name, status, type, API number, operator, closest city, oil
produced, gas produced), each line showing the field's value when present
and the literal text `"Unknown"` when absent. -/
theorem popup_fields_order_and_fallback (i : Nat) (w : Well) :
    ((renderWell i w).popup).map Prod.fst =
      ["Well Name", "Status", "Type", "API No", "Operator",
       "Closest City", "Oil Produced", "Gas Produced"] ∧
    ((renderWell i w).popup).map Prod.snd =
      [.str (w.WELL_NAME.getD "Unknown"), .str (w.WELL_STATUS.getD "Unknown"),
       .str (w.WELL_TYPE.getD "Unknown"), .str (w.API_NO.getD "Unknown"),
       .str (w.OPERATOR.getD "Unknown"), .str (w.CLOSEST_CITY.getD "Unknown"),
       .str (w.OIL_PRODUCED.getD "Unknown"), .str (w.GAS_PRODUCED.getD "Unknown")] :=
  ⟨rfl, rfl⟩

/-- Claim C7: the reducer is a no-op on every action whose type is not
`SET_WELLS`: the resulting state equals the prior state. -/
theorem unrecognized_action_is_noop (s : Json) (a : ActionJs)
    (h : a.type ≠ "SET_WELLS") : wellsReducer s a = s := by
  simp [wellsReducer, h]

/-- Witness for C7: a `RESET` action leaves the state untouched. -/
theorem unrecognized_action_is_noop_check :
    wellsReducer (Json.str "prior") ⟨"RESET", Json.null⟩ = Json.str "prior" :=
  unrecognized_action_is_noop (Json.str "prior") ⟨"RESET", Json.null⟩ (by decide)

/-- Claim C8: replacing the WellSet twice with the same payload renders
identically to replacing it once (the second replacement is absorbed),
and a successful render has no duplicate markers: marker keys are
pairwise distinct. -/
theorem set_wells_idempotent_rendering (s p : Json) :
    wellsReducer (wellsReducer s ⟨"SET_WELLS", p⟩) ⟨"SET_WELLS", p⟩ =
      wellsReducer s ⟨"SET_WELLS", p⟩ ∧
    renderState (wellsReducer (wellsReducer s ⟨"SET_WELLS", p⟩) ⟨"SET_WELLS", p⟩) =
      renderState (wellsReducer s ⟨"SET_WELLS", p⟩) ∧
    ∀ ms, renderState (wellsReducer s ⟨"SET_WELLS", p⟩) = .ok ms →
      (ms.map Marker.key).Nodup := by
  have hred : ∀ s2, wellsReducer s2 ⟨"SET_WELLS", p⟩ = p := fun s2 => by
    simp [wellsReducer]
  refine ⟨by rw [hred, hred], by rw [hred, hred], ?_⟩
  intro ms hms
  rw [hred] at hms
  match p with
  | .null => exact absurd hms (by simp [renderState])
  | .bool b => exact absurd hms (by simp [renderState])
  | .num q => exact absurd hms (by simp [renderState])
  | .str s3 => exact absurd hms (by simp [renderState])
  | .obj fs => exact absurd hms (by simp [renderState])
  | .arr es =>
    have hkeys := keys_of_renderElems hms
    rw [hkeys]
    exact List.nodup_range' 0 es.length

/-- Witness for C8: dispatching the one-empty-record payload twice
renders the same single marker list as dispatching it once, with no
duplicate keys. -/
theorem set_wells_idempotent_rendering_check :
    renderState (wellsReducer (wellsReducer (Json.str "stale")
        ⟨"SET_WELLS", Json.arr [exampleEmptyRecord]⟩)
      ⟨"SET_WELLS", Json.arr [exampleEmptyRecord]⟩) =
      renderState (wellsReducer (Json.str "stale")
        ⟨"SET_WELLS", Json.arr [exampleEmptyRecord]⟩) ∧
    ([exampleEmptyMarker].map Marker.key).Nodup :=
  ⟨(set_wells_idempotent_rendering (Json.str "stale")
      (Json.arr [exampleEmptyRecord])).2.1,
   (set_wells_idempotent_rendering (Json.str "stale")
      (Json.arr [exampleEmptyRecord])).2.2 [exampleEmptyMarker] rfl⟩

/-- Claim C9: a fetch body that is valid JSON but not an array is
dispatched to the View Model unchanged, and the subsequent render throws
a `TypeError` when iterating it: rendering succeeds only on array-shaped
WellSets. -/
theorem nonarray_body_dispatched_then_render_throws
    (j s : Json) (status : Nat) (h : ∀ es, j ≠ .arr es) :
    loaderDispatches (.response status (.ok j)) = [⟨"SET_WELLS", j⟩] ∧
    applyFetch s (.response status (.ok j)) = j ∧
    renderState j = .error (.typeError "wells.map is not a function") := by
  refine ⟨rfl, by simp [applyFetch, loaderDispatches, wellsReducer], ?_⟩
  match j with
  | .null => rfl
  | .bool b => rfl
  | .num q => rfl
  | .str s2 => rfl
  | .obj fs => rfl
  | .arr es => exact absurd rfl (h es)

/-- Witness for C9: a JSON number body is dispatched unchanged and the
render of the resulting state throws. -/
theorem nonarray_body_dispatched_then_render_throws_check :
    loaderDispatches (.response 200 (.ok (Json.num 42))) =
      [⟨"SET_WELLS", Json.num 42⟩] ∧
    applyFetch initialWells (.response 200 (.ok (Json.num 42))) = Json.num 42 ∧
    renderState (Json.num 42) = .error (.typeError "wells.map is not a function") :=
  nonarray_body_dispatched_then_render_throws (Json.num 42) initialWells 200
    (fun _ hx => Json.noConfusion hx)

/-- Claim C10: a coordinate string that is empty or all whitespace
coerces to 0, not NaN, so a record with such coordinates renders a marker
at coordinate 0 instead of being excluded. -/
theorem whitespace_coordinates_coerce_to_zero (s : String)
    (h : s.toList.all isJsWhitespace = true) :
    stringToNumber s = .val 0 ∧
    (renderWellJson 0 (.obj [("LATITUDE", .str s),
      ("LONGITUDE", .str s)])).toOption.map Marker.position =
      some (.val 0, .val 0) := by
  have h0 : stringToNumber s = JsNum.val 0 := by
    have ht := jsTrim_eq_nil_of_all h
    unfold stringToNumber parseNumLit
    rw [ht]
    norm_num [numLitValue]
  refine ⟨h0, ?_⟩
  have hpos : (renderWellJson 0 (.obj [("LATITUDE", .str s),
      ("LONGITUDE", .str s)])).toOption.map Marker.position =
      some (stringToNumber s, stringToNumber s) := rfl
  rw [hpos, h0]

/-- Witness for C10: the empty coordinate string places the marker at
(0, 0). -/
theorem whitespace_coordinates_coerce_to_zero_check :
    stringToNumber "" = .val 0 ∧
    (renderWellJson 0 (.obj [("LATITUDE", .str ""),
      ("LONGITUDE", .str "")])).toOption.map Marker.position =
      some (.val 0, .val 0) :=
  whitespace_coordinates_coerce_to_zero "" rfl

end WellViewer
